/-
  Verification of the topology / registry / power-model core of the AIMMee
  simulator (AIMMee/AIMMee.py).

  Modelling conventions:
  * A Python dict is an association list with first-match lookup; insertion
    (`setdefault`) appends at the end, preserving Python's insertion order.
  * In-place mutation of a list stored in a dict is modelled by reading the
    list from the current map and writing the new list back before the next
    read, which is observationally identical to the aliased mutation (the
    list stored in the dict *is* the object being mutated).
  * Every float literal appearing in the modelled code is an exact decimal
    (0.0, 1.0, 10.0, 20.0, 656.25, ...), so floats are modelled as rationals.
  * An attribute that no statement of the program ever assigns is modelled as
    an `Option` field that stays `none`; reading such an attribute yields
    `PyErr.attributeError`, as in Python.
  * Operations return their (possibly partially mutated) state together with
    `Option PyErr`: `some e` models an exception propagating to the caller.
-/
import Mathlib

abbrev Guid := Nat

/-- The exceptions the modelled code can raise: dict lookup of a missing key,
    access to a never-assigned attribute, the `ValueError`s of explicit
    checks, and a bare `raise Exception(msg)`. -/

inductive PyErr where
  | keyError : PyErr
  | attributeError : PyErr
  | valueError : PyErr
  | exception : String → PyErr
  deriving DecidableEq

/-- Python `d[q]` on a dict modelled as an association list (first match). -/

def lookupA {α β : Type} [DecidableEq α] : List (α × β) → α → Option β
  | [], _ => none
  | (k, v) :: rest, q => if q = k then some v else lookupA rest q

/-- Python `d[q] = w` for a key already present (first-match replacement;
    never inserts a fresh key — all writes in the modelled code target keys
    obtained from a previous successful lookup). -/

def updateA {α β : Type} [DecidableEq α] : List (α × β) → α → β → List (α × β)
  | [], _, _ => []
  | (k, v) :: rest, q, w => if q = k then (q, w) :: rest else (k, v) :: updateA rest q w

/-- Python `d.setdefault(q, w)`: keep an existing entry, otherwise append. -/

def setdefaultA {α β : Type} [DecidableEq α] (l : List (α × β)) (q : α) (w : β) :
    List (α × β) :=
  match lookupA l q with
  | some _ => l
  | none => l ++ [(q, w)]

/-!  ## The topology dictionary

`Sim.topology` is a dict from class name to a dict from GUID to the list of
GUIDs of linked objects (`sim.topology[class_name][guid] -> list of guid`).
-/

abbrev ClassDict := List (Guid × List Guid)

abbrev Topology := List (String × ClassDict)

/-- Python `sim.topology[c][g]`; `none` models the `KeyError` (at either
    level) propagating to the caller. -/

def lookup2 (t : Topology) (c : String) (g : Guid) : Option (List Guid) :=
  (lookupA t c).bind fun d => lookupA d g

/-- Write the adjacency list stored at `sim.topology[c][g]` (a no-op when the
    key is absent; all writes in the modelled code follow a successful read). -/

def update2 (t : Topology) (c : String) (g : Guid) (l : List Guid) : Topology :=
  match lookupA t c with
  | none => t
  | some d => updateA t c (updateA d g l)

/-- Python `sim.topology.setdefault(c, {}).setdefault(g, [])`
    (from `SimObject.add_to_sim`). -/

def setdefault2 (t : Topology) (c : String) (g : Guid) : Topology :=
  match lookupA t c with
  | none => t ++ [(c, [(g, [])])]
  | some d => updateA t c (setdefaultA d g [])

/-- The adjacency list of a registered node (callers establish presence
    before reading; the default is never reached on those paths). -/

def getL (t : Topology) (c : String) (g : Guid) : List Guid :=
  (lookup2 t c g).getD []

/-- All GUIDs that own an adjacency entry somewhere in the topology. -/

def topoGuids (t : Topology) : List Guid :=
  t.flatMap fun p => p.2.map Prod.fst

/-!  ## SimObject and the Sim registration state

`SimObject.__init__` (AIMMee.py : 297-309) sets `guid` (the CPython object
identity `id(self)`), `class_name`, `idx`, `label`, the back-reference
`self.sim` (the enclosing `Sim`, which the embedding passes explicitly), and
`interval` (kept when a subclass assigned it before delegating, else `0.0`).
The fields `_power_model`, `_sim` and `_guid` are *read* by `power_model` /
`deregister_link` but no statement in the repository ever assigns them:
`none` models the absent attribute, whose access raises `AttributeError`.
For `_power_model`, `some none` would model an attribute explicitly set to
`None` (the getter has a branch for it); the setter only accepts numbers or
callables, and every model actually assigned in the source is the numeric
result of calling a model method.  `accumulated_joules` is likewise never
assigned anywhere in the repository.
-/

structure SimObject where
  guid : Guid
  class_name : String
  idx : Nat
  label : String
  interval : ℚ
  _power_model : Option (Option ℚ) := none
  _sim : Option Unit := none
  _guid : Option Guid := none
  accumulated_joules : Option ℚ := none
  deriving DecidableEq

/-- `Sim` state relevant to registration: `self.topology` and `self.guid_map`
    (both initialised empty by `set_sim_topology` / `set_guid_map`). -/

structure SimState where
  topology : Topology
  guid_map : List (Guid × SimObject)
  deriving DecidableEq

/-- `SimObject.add_to_sim` (AIMMee.py : 317-325):
    `sim.topology.setdefault(self.class_name, {}).setdefault(self.guid, [])`
    and `sim.guid_map.setdefault(self.guid, self)`.  The only raise in the
    body is the `isinstance(sim, Sim)` `ValueError`, which cannot fire for
    the `SimState`-typed argument, so the error component is always `none`. -/

def add_to_sim (s : SimState) (o : SimObject) : SimState × Option PyErr :=
  ({ topology := setdefault2 s.topology o.class_name o.guid,
     guid_map := setdefaultA s.guid_map o.guid o }, none)

/-- `SimObject.__init__` (AIMMee.py : 297-309).  `g` stands for the fresh
    `id(self)`; `preInterval` is `some i` when the subclass assigned
    `self.interval = i` before delegating (`hasattr` branch), else the
    default `0.0` is used. -/

def simObjectInit (s : SimState) (className : String) (g : Guid) (idx : Nat)
    (preInterval : Option ℚ) : SimObject × SimState :=
  let o : SimObject :=
    { guid := g, class_name := className, idx := idx,
      label := className ++ "[" ++ toString idx ++ "]",
      interval := preInterval.getD 0 }
  (o, (add_to_sim s o).1)

/-- The mutation core of `SimObject.register_link` (AIMMee.py : 336-348),
    shared with the link step of `AIMMeeUE.update_ue_topology`: append
    `g2` to `(c1, g1)`'s adjacency list unless already present, then append
    `g1` to `(c2, g2)`'s list unless already present.  The second read
    happens after the first append, exactly as the aliased Python lists
    behave when both arguments are the same object. -/

def linkPair (t : Topology) (c1 : String) (g1 : Guid) (c2 : String) (g2 : Guid) : Topology :=
  let l1 := getL t c1 g1
  let t1 := if g2 ∈ l1 then t else update2 t c1 g1 (l1 ++ [g2])
  let l2 := getL t1 c2 g2
  if g1 ∈ l2 then t1 else update2 t1 c2 g2 (l2 ++ [g1])

/-- `SimObject.register_link` (AIMMee.py : 328-348).  The `isinstance`
    checks on `other` and `self.sim` are satisfied by typing; the two
    adjacency-list reads raise `KeyError` for an unregistered node, before
    any mutation. -/

def register_link (t : Topology) (a b : SimObject) : Topology × Option PyErr :=
  if (lookup2 t a.class_name a.guid).isNone then (t, some PyErr.keyError)
  else if (lookup2 t b.class_name b.guid).isNone then (t, some PyErr.keyError)
  else (linkPair t a.class_name a.guid b.class_name b.guid, none)

/-- `SimObject.deregister_link` (AIMMee.py : 351-367).  The body reads
    `self._sim` (line 358), `other._sim` (line 359) and `self._guid`
    (line 364) — attributes that no statement in the repository ever
    assigns (`__init__` sets the plain `sim` / `guid` fields), each read
    modelled faithfully; `list.remove` removes the first occurrence.  -/

def deregister_link (t : Topology) (a b : SimObject) : Topology × Option PyErr :=
  match a._sim with
  | none => (t, some PyErr.attributeError)
  | some _ =>
    match lookup2 t a.class_name a.guid with
    | none => (t, some PyErr.keyError)
    | some self_links =>
      match b._sim with
      | none => (t, some PyErr.attributeError)
      | some _ =>
        match lookup2 t b.class_name b.guid with
        | none => (t, some PyErr.keyError)
        | some _ =>
          let t1 :=
            if b.guid ∈ self_links then
              update2 t a.class_name a.guid (self_links.erase b.guid)
            else t
          match a._guid with
          | none => (t1, some PyErr.attributeError)
          | some ag =>
            let other_links := getL t1 b.class_name b.guid
            if ag ∈ other_links then
              (update2 t1 b.class_name b.guid (other_links.erase a.guid), none)
            else (t1, none)

/-!  ## The UE attachment state machine (`AIMMeeUE`) -/

/-- The `AIMMeeUE` attributes driving `update_cell_guid` /
    `update_ue_topology`: `guid` (always assigned `id(self)` by `__init__`,
    the `Option` mirrors the `if self.guid == None` check), and the two
    cell-GUID registers, both initialised to `None`. -/

structure UEState where
  guid : Option Guid
  last_cell_guid : Option Guid
  current_cell_guid : Option Guid
  deriving DecidableEq

/-- `AIMMeeUE.update_cell_guid` (AIMMee.py : 711-718); `serving_cell_guid`
    is `self.serving_cell.guid`, supplied by the excluded attachment
    collaborator. -/

def update_cell_guid (u : UEState) (serving_cell_guid : Guid) : UEState :=
  if some serving_cell_guid = u.current_cell_guid then u
  else { u with last_cell_guid := u.current_cell_guid,
                current_cell_guid := some serving_cell_guid }

/-- The removal half of `AIMMeeUE.update_ue_topology` (AIMMee.py : 727-732),
    executed when `self.last_cell_guid is not None`: the two `while … remove`
    loops delete every occurrence of the UE's GUID from the last cell's list
    and of the last cell's GUID from the UE's list.  Each of the two dict
    accesses raises `KeyError` when the key is missing — the second one after
    the first removal already happened (the state component carries the
    partial mutation, as the exception propagates). -/

def ue_remove_phase (t : Topology) (g lg : Guid) : Topology × Option PyErr :=
  match lookup2 t "AIMMeeCell" lg with
  | none => (t, some PyErr.keyError)
  | some ll =>
    match lookup2 (update2 t "AIMMeeCell" lg (ll.filter fun x => x != g))
        "AIMMeeUE" g with
    | none => (update2 t "AIMMeeCell" lg (ll.filter fun x => x != g),
               some PyErr.keyError)
    | some ul =>
      (update2 (update2 t "AIMMeeCell" lg (ll.filter fun x => x != g))
        "AIMMeeUE" g (ul.filter fun x => x != lg), none)

/-- The insertion half of `AIMMeeUE.update_ue_topology` (AIMMee.py : 733-738):
    guarded append of the UE's GUID to the current cell's list, then guarded
    append of the current cell's GUID to the UE's list.  A `None`
    `current_cell_guid` or a missing key raises `KeyError` (the first append
    may already have happened when the UE's own entry is missing).  When both
    entries exist, the two guarded appends are exactly the mutation core
    `linkPair` shared with `register_link` (whose internal default-valued
    reads are unreachable because presence was just established). -/

def ue_add_phase (t : Topology) (g : Guid) (cur : Option Guid) : Topology × Option PyErr :=
  match cur with
  | none => (t, some PyErr.keyError)
  | some cg =>
    match lookup2 t "AIMMeeCell" cg with
    | none => (t, some PyErr.keyError)
    | some cl =>
      match lookup2 (if g ∈ cl then t else update2 t "AIMMeeCell" cg (cl ++ [g]))
          "AIMMeeUE" g with
      | none =>
        (if g ∈ cl then t else update2 t "AIMMeeCell" cg (cl ++ [g]),
         some PyErr.keyError)
      | some _ => (linkPair t "AIMMeeCell" cg "AIMMeeUE" g, none)

/-- `AIMMeeUE.update_ue_topology` (AIMMee.py : 720-738): nothing happens when
    `self.guid` is `None` or when `last_cell_guid == current_cell_guid`;
    otherwise the removal phase runs when `last_cell_guid is not None`,
    followed (if no exception) by the insertion phase. -/

def update_ue_topology (t : Topology) (u : UEState) : Topology × Option PyErr :=
  match u.guid with
  | none => (t, none)
  | some g =>
    if u.last_cell_guid = u.current_cell_guid then (t, none)
    else
      match u.last_cell_guid with
      | none => ue_add_phase t g u.current_cell_guid
      | some lg =>
        match ue_remove_phase t g lg with
        | (t2, some e) => (t2, some e)
        | (t2, none) => ue_add_phase t2 g u.current_cell_guid

/-!  ## Topology invariants

`KGU`: a GUID owns an adjacency entry under at most one class tag (true of
every reachable state because a node is registered under its single runtime
class and `id()` values of simultaneously live objects differ).
`NodupAdj`: adjacency lists are duplicate-free.
`MentionedReg`: every GUID mentioned in an adjacency list is registered.
`SymAdj`: the link-symmetry property of the specification.
-/

def KGU (t : Topology) : Prop :=
  ∀ c1 c2 g, (lookup2 t c1 g).isSome → (lookup2 t c2 g).isSome → c1 = c2

def NodupAdj (t : Topology) : Prop :=
  ∀ c g l, lookup2 t c g = some l → l.Nodup

def MentionedReg (t : Topology) : Prop :=
  ∀ c g l, lookup2 t c g = some l → ∀ x ∈ l, x ∈ topoGuids t

def SymAdj (t : Topology) : Prop :=
  ∀ c1 g1 l1 c2 g2 l2, lookup2 t c1 g1 = some l1 → lookup2 t c2 g2 = some l2 →
    (g2 ∈ l1 ↔ g1 ∈ l2)

def TopoInv (t : Topology) : Prop := KGU t ∧ NodupAdj t ∧ MentionedReg t ∧ SymAdj t

/-!  ## The GUID map and reachable simulation states -/

/-- Invariant of `sim.guid_map`: every entry stores a node under its own
    GUID, and (as for every Python dict) keys are unique. -/

def GMInv (gm : List (Guid × SimObject)) : Prop :=
  (∀ p ∈ gm, p.2.guid = p.1) ∧ (gm.map Prod.fst).Nodup

def SimInv (s : SimState) : Prop := TopoInv s.topology ∧ GMInv s.guid_map

/-- The states one `Sim` can reach: starting from empty `topology` /
    `guid_map`, any sequence of node registrations (every factory call
    registers through `SimObject.add_to_sim`; re-registration is allowed, and
    a first registration carries the CPython guarantee that the fresh `id()`
    differs from the GUID of every live — hence registered or linked —
    object), `register_link` calls with any outcome, `deregister_link` calls
    on program-built objects (whose `_sim` attribute is never assigned), and
    `update_ue_topology` runs for a UE whose own entry is registered. -/

inductive SimReach : SimState → Prop
  | init : SimReach { topology := [], guid_map := [] }
  | add {s : SimState} (o : SimObject)
      (hfresh : (lookup2 s.topology o.class_name o.guid).isSome = true ∨
        o.guid ∉ topoGuids s.topology)
      (h : SimReach s) : SimReach (add_to_sim s o).1
  | link {s : SimState} (a b : SimObject) (h : SimReach s) :
      SimReach { topology := (register_link s.topology a b).1, guid_map := s.guid_map }
  | unlink {s : SimState} (a b : SimObject) (ha : a._sim = none) (h : SimReach s) :
      SimReach { topology := (deregister_link s.topology a b).1, guid_map := s.guid_map }
  | ueTopo {s : SimState} (u : UEState)
      (hu : ∀ g, u.guid = some g → (lookup2 s.topology "AIMMeeUE" g).isSome)
      (h : SimReach s) :
      SimReach { topology := (update_ue_topology s.topology u).1, guid_map := s.guid_map }

deriving instance DecidableEq for Except

/-- The `power_model` property getter (AIMMee.py : 369-378): it guards on
    `self._power_model is None` (returning `None` after printing a notice),
    but `__init__` never initialises `_power_model`, so on a node whose
    power model was never assigned the access itself raises
    `AttributeError` and the `None` branch is unreachable. -/

def power_model_get (o : SimObject) : Except PyErr (Option ℚ) :=
  match o._power_model with
  | none => Except.error PyErr.attributeError
  | some none => Except.ok none
  | some (some m) => Except.ok (some m)

/-- The `power_model` property setter (AIMMee.py : 380-388); the
    `isinstance(new_power_model, (int, float, Callable))` check passes for
    the numeric values every assignment in the source produces (each
    assigns the *result of calling* a model method). -/

def set_power_model (o : SimObject) (v : ℚ) : SimObject :=
  { o with _power_model := some (some v) }

/-- One tick of the node `loop`s (`RadioAccessPoint.loop`, `RadioUnit.loop`,
    `DistributedUnit.loop`, `CentralisedUnit.loop`, `RemoteRadioHead.loop`,
    `AntennaPanel.loop` — all textually identical:
    `while True: yield self.sim.env.timeout(self.interval)`).  The body
    mutates nothing; a tick only advances simulated time by `interval`. -/

def simobject_loop_tick (o : SimObject) (now : ℚ) : SimObject × ℚ :=
  (o, now + o.interval)

def run_loop_ticks : Nat → SimObject × ℚ → SimObject × ℚ
  | 0, p => p
  | n + 1, p => run_loop_ticks n (simobject_loop_tick p.1 p.2)

/-- Reading `accumulated_joules`: no statement anywhere in the repository
    assigns this attribute, so reading it raises `AttributeError`. -/

def accumulated_joules_read (o : SimObject) : Except PyErr ℚ :=
  match o.accumulated_joules with
  | none => Except.error PyErr.attributeError
  | some v => Except.ok v

/-- `DistributedUnit.example_DU_power_model` (AIMMee.py : 503-515): returns
    `power_consumption` and also derives `p_load = power_consumption /
    P_supply_max`; both returned here as a pair (the source stores them on
    `self` and returns the former). -/

def example_DU_power_model (P_supply_max n_cpu P_cpu ram_GB P_ram_GB n_gpu P_gpu
    n_accel P_accel n_asic P_asic n_nic P_nic : ℚ) : ℚ × ℚ :=
  (n_cpu * P_cpu + ram_GB * P_ram_GB + n_gpu * P_gpu + n_accel * P_accel
      + n_asic * P_asic + n_nic * P_nic,
   (n_cpu * P_cpu + ram_GB * P_ram_GB + n_gpu * P_gpu + n_accel * P_accel
      + n_asic * P_asic + n_nic * P_nic) / P_supply_max)

structure DistributedUnit where
  obj : SimObject
  power_consumption : ℚ
  p_load : ℚ
  deriving DecidableEq

/-- `DistributedUnit.__init__` (AIMMee.py : 487-492): registers, then
    assigns `power_model = example_DU_power_model()` with the default
    parameters (0.375 = 3/8). -/

def distributedUnitInit (s : SimState) (g : Guid) (idx : Nat) :
    DistributedUnit × SimState :=
  let p := simObjectInit s "DistributedUnit" g idx none
  let pm := example_DU_power_model 2100 2 90 384 (3/8) 0 0 1 52 1 23 3 75
  ({ obj := set_power_model p.1 pm.1, power_consumption := pm.1, p_load := pm.2 }, p.2)

/-- `CentralisedUnit.example_CU_power_model` (AIMMee.py : 546-551). -/

def example_CU_power_model (du_load : ℚ) : ℚ :=
  (1 - du_load) * 656.25

structure CentralisedUnit where
  obj : SimObject
  du : Option DistributedUnit
  -- `self.cu` is read by `attach_to_du` but no statement in the repository
  -- ever assigns it; `none` models the absent attribute.
  cu : Option SimObject
  deriving DecidableEq

/-- `CentralisedUnit.__init__` (AIMMee.py : 528-535): sets `du = None`,
    registers, then assigns
    `power_model = example_CU_power_model(du_load=0.0)`. -/

def centralisedUnitInit (s : SimState) (g : Guid) (idx : Nat) :
    CentralisedUnit × SimState :=
  let p := simObjectInit s "CentralisedUnit" g idx none
  ({ obj := set_power_model p.1 (example_CU_power_model 0), du := none, cu := none },
   p.2)

/-- `CentralisedUnit.attach_to_du` (AIMMee.py : 537-544): sets
    `self.du = du`, then evaluates `self.register_link(other=self.cu)` —
    the argument `self.cu` is read first, and since nothing ever assigns
    `cu`, this raises `AttributeError` (after `du` was already mutated). -/

def attach_to_du (t : Topology) (c : CentralisedUnit) (du : DistributedUnit) :
    CentralisedUnit × Topology × Option PyErr :=
  match ({ c with du := some du } : CentralisedUnit).cu with
  | none => ({ c with du := some du }, t, some PyErr.attributeError)
  | some cuObj =>
    (({ c with du := some du } : CentralisedUnit),
     (register_link t c.obj cuObj).1, (register_link t c.obj cuObj).2)

/-!  ## RemoteRadioHead: RF ports and fronthaul ports -/

structure RfPort where
  antenna_panel : Option Guid
  rf_output_max_watts : ℚ
  rf_output_watts : ℚ
  deriving DecidableEq

def rf_key (i : Nat) : String := "port[" ++ toString i ++ "]"

/-- `RemoteRadioHead.make_rf_ports` (AIMMee.py : 598-607): a dict
    `port[i] -> {antenna_panel: None, rf_output_max_watts: 20.0,
    rf_output_watts: 0.0}`; the comprehension builds a fresh record per
    port. -/

def make_rf_ports (n_rf_ports : Nat) : List (String × RfPort) :=
  (List.range n_rf_ports).map fun i =>
    (rf_key i, { antenna_panel := none, rf_output_max_watts := 20, rf_output_watts := 0 })

structure AntennaPanel where
  obj : SimObject
  xyz : ℚ × ℚ × ℚ
  azimuth : ℚ
  elevation : ℚ
  pattern : Option Unit
  deriving DecidableEq

/-- `AntennaPanel.__init__` (AIMMee.py : 669-683): stores the geometry
    defaults then delegates to `SimObject.__init__`, which registers the
    panel into the topology and GUID map. -/

def antennaPanelInit (s : SimState) (g : Guid) (idx : Nat) : AntennaPanel × SimState :=
  let p := simObjectInit s "AntennaPanel" g idx none
  ({ obj := p.1, xyz := (0, 0, 0), azimuth := 0, elevation := 0, pattern := none }, p.2)

/-- The `RemoteRadioHead` state relevant to RF-port allocation. -/

structure RrhState where
  sim : SimState
  rrh : SimObject
  rf_ports : List (String × RfPort)
  deriving DecidableEq

/-- `RemoteRadioHead.make_AntennaPanel` (AIMMee.py : 636-652), in source
    order: (1) construct the AntennaPanel — registering it into topology and
    GUID map; (2) `self.add_to_sim(...)` — re-adds the RRH itself (no-op);
    (3) `register_link(self, ap)`; (4) scan the RF-port dict in insertion
    order — the loop body either assigns-and-breaks on a free port or
    executes `raise Exception('... No free antenna ports available.')`, so
    iteration never proceeds past the first port: matching only the head of
    the list is the exact behaviour. -/

def make_AntennaPanel (st : RrhState) (apGuid : Guid) (apIdx : Nat) :
    RrhState × Option PyErr :=
  let ap := antennaPanelInit st.sim apGuid apIdx
  let sim2 := (add_to_sim ap.2 st.rrh).1
  let lr := register_link sim2.topology st.rrh ap.1.obj
  let sim3 : SimState := { topology := lr.1, guid_map := sim2.guid_map }
  match lr.2 with
  | some e => ({ st with sim := sim3 }, some e)
  | none =>
    match st.rf_ports with
    | [] => ({ st with sim := sim3 }, none)
    | (k, p) :: rest =>
      if p.antenna_panel = none then
        (RrhState.mk sim3 st.rrh ((k, { p with antenna_panel := some apGuid }) :: rest),
         none)
      else
        ({ st with sim := sim3 },
         some (PyErr.exception (st.rrh.label ++ ": No free antenna ports available.")))

structure FhPortParams where
  protocol : String
  data_rate_Gbps : ℚ
  data_rate_Gbps_max : ℚ
  deriving DecidableEq

/-- The fronthaul state of a `RemoteRadioHead`.  Python dict values are
    object references: `heap` holds the allocated parameter dicts and the
    two reference fields index into it, so aliasing is first-class. -/

structure FronthaulState where
  heap : List FhPortParams
  _default_port_params : Nat
  _fronthaul_ports : List (String × Nat)
  deriving DecidableEq

def fh_key (i : Nat) : String := "fh_port[" ++ toString i ++ "]"

/-- `RemoteRadioHead.make_fronthaul_ports` (AIMMee.py : 617-628): builds ONE
    parameter dict — with `protocol` from the argument, `data_rate_Gbps`
    0.0, and `data_rate_Gbps_max` hard-coded to 10.0, ignoring the
    `data_rate_Gbps_max` argument — binds it to `self._default_port_params`,
    and the comprehension stores that same single object under every
    `fh_port[i]` key. -/

def make_fronthaul_ports (n_ports : Nat) (protocol : String)
    (data_rate_Gbps_max : ℚ) : FronthaulState :=
  { heap := [{ protocol := protocol, data_rate_Gbps := 0, data_rate_Gbps_max := 10 }],
    _default_port_params := 0,
    _fronthaul_ports := (List.range n_ports).map fun i => (fh_key i, 0) }

/-- `RemoteRadioHead.get_fronthaul_port` (AIMMee.py : 630-634): returns
    `self._fronthaul_ports[f'fh_port[{i}]']` — the reference stored under
    the key; the `protocol` parameter is accepted and ignored, as in the
    source. -/

def get_fronthaul_port (st : FronthaulState) (protocol : String) (i : Nat) :
    Except PyErr Nat :=
  match lookupA st._fronthaul_ports (fh_key i) with
  | none => Except.error PyErr.keyError
  | some r => Except.ok r

/-!  ## Concrete scenario states used by the claim theorems and witnesses -/

def cellW : SimObject :=
  (simObjectInit { topology := [], guid_map := [] } "AIMMeeCell" 1 0 none).1

def ueW : SimObject :=
  (simObjectInit { topology := [], guid_map := [] } "AIMMeeUE" 2 0 none).1

def simW : SimState :=
  (add_to_sim (add_to_sim { topology := [], guid_map := [] } cellW).1 ueW).1

def t0W : Topology :=
  [("AIMMeeCell", [(1, [10]), (2, [])]), ("AIMMeeUE", [(10, [1])])]

def u0W : UEState :=
  { guid := some 10, last_cell_guid := none, current_cell_guid := some 1 }

def rrh0 : SimObject :=
  (simObjectInit { topology := [], guid_map := [] } "RemoteRadioHead" 100 0 none).1

/-- A fresh `RemoteRadioHead(n_rf_ports=2)` as far as RF-port allocation is
    concerned: registered, with `rf_ports = make_rf_ports 2`. -/

def rrhSim0 : RrhState :=
  { sim := (simObjectInit { topology := [], guid_map := [] } "RemoteRadioHead" 100 0 none).2,
    rrh := rrh0,
    rf_ports := make_rf_ports 2 }

def apCall1 : RrhState × Option PyErr := make_AntennaPanel rrhSim0 101 0

def apCall2 : RrhState × Option PyErr := make_AntennaPanel apCall1.1 102 1

/-- A node with constant power model 10.0 and interval 1.0 (as a
    `RadioAccessPoint` is constructed with `interval=1.0`). -/

def energy_node : SimObject :=
  set_power_model
    ((simObjectInit { topology := [], guid_map := [] } "RadioAccessPoint" 400 0 (some 1)).1)
    10

def rap_node : SimObject :=
  (simObjectInit { topology := [], guid_map := [] } "RadioAccessPoint" 300 0 (some 1)).1

/-- A `DistributedUnit` with `p_load = 0.4`, the load value named by the
    claim (`example_DU_power_model` is a pure function of its parameters,
    so any load value is expressible). -/

def du400 : DistributedUnit :=
  { obj := set_power_model
      ((simObjectInit { topology := [], guid_map := [] } "DistributedUnit" 201 0 none).1)
      840,
    power_consumption := 840,
    p_load := 2/5 }

def cuScenario : CentralisedUnit × SimState :=
  centralisedUnitInit { topology := [], guid_map := [] } 200 0

def cuAttach : CentralisedUnit × Topology × Option PyErr :=
  attach_to_du cuScenario.2.topology cuScenario.1 du400

theorem lookupA_updateA_self {α β : Type} [DecidableEq α] (l : List (α × β)) (q : α) (w : β) :
    lookupA (updateA l q w) q = (lookupA l q).map (fun _ => w) := by
  induction l with
  | nil => rfl
  | cons p rest ih =>
    obtain ⟨k, v⟩ := p
    by_cases hk : q = k
    · simp [updateA, lookupA, hk]
    · simp [updateA, lookupA, hk, ih]

theorem lookupA_updateA_ne {α β : Type} [DecidableEq α] (l : List (α × β)) {q q' : α} (w : β) (h : q' ≠ q) :
    lookupA (updateA l q w) q' = lookupA l q' := by
  induction l with
  | nil => rfl
  | cons p rest ih =>
    obtain ⟨k, v⟩ := p
    by_cases hk : q = k
    · subst hk
      simp [updateA, lookupA, h]
    · by_cases hk' : q' = k
      · simp [updateA, lookupA, hk, hk']
      · simp [updateA, lookupA, hk, hk', ih]

theorem updateA_lookup_self {α β : Type} [DecidableEq α] (l : List (α × β)) {q : α} {w : β}
    (h : lookupA l q = some w) : updateA l q w = l := by
  induction l with
  | nil => simp [lookupA] at h
  | cons p rest ih =>
    obtain ⟨k, v⟩ := p
    by_cases hk : q = k
    · subst hk
      simp [lookupA] at h
      simp [updateA, h]
    · simp [lookupA, hk] at h
      simp [updateA, hk, ih h]

theorem map_fst_updateA {α β : Type} [DecidableEq α] (l : List (α × β)) (q : α) (w : β) :
    (updateA l q w).map Prod.fst = l.map Prod.fst := by
  induction l with
  | nil => rfl
  | cons p rest ih =>
    obtain ⟨k, v⟩ := p
    by_cases hk : q = k
    · simp [updateA, hk]
    · simp [updateA, hk, ih]

theorem mem_fst_of_lookupA_isSome {α β : Type} [DecidableEq α] {l : List (α × β)} {q : α}
    (h : (lookupA l q).isSome) : q ∈ l.map Prod.fst := by
  induction l with
  | nil => simp [lookupA] at h
  | cons p rest ih =>
    obtain ⟨k, v⟩ := p
    by_cases hk : q = k
    · simp [hk]
    · simp [lookupA, hk] at h
      simp [ih h]

theorem lookupA_eq_none_of_not_mem_fst {α β : Type} [DecidableEq α] {l : List (α × β)} {q : α}
    (h : q ∉ l.map Prod.fst) : lookupA l q = none := by
  cases hq : lookupA l q with
  | none => rfl
  | some v => exact absurd (mem_fst_of_lookupA_isSome (by simp [hq])) h

theorem lookupA_append_single {α β : Type} [DecidableEq α] (l : List (α × β)) (q : α) (w : β) (q' : α) :
    lookupA (l ++ [(q, w)]) q' =
      match lookupA l q' with
      | some x => some x
      | none => if q' = q then some w else none := by
  induction l with
  | nil => rfl
  | cons p rest ih =>
    obtain ⟨k, v⟩ := p
    by_cases hk : q' = k
    · simp [lookupA, hk]
    · simp [lookupA, hk, ih]

theorem setdefaultA_of_isSome {α β : Type} [DecidableEq α] {l : List (α × β)} {q : α} (w : β)
    (h : (lookupA l q).isSome) : setdefaultA l q w = l := by
  unfold setdefaultA
  cases hq : lookupA l q with
  | none => simp [hq] at h
  | some v => rfl

theorem lookupA_setdefaultA_self {α β : Type} [DecidableEq α] (l : List (α × β)) (q : α) (w : β) :
    lookupA (setdefaultA l q w) q = some ((lookupA l q).getD w) := by
  unfold setdefaultA
  cases hq : lookupA l q with
  | some v => simp [hq]
  | none => simp [lookupA_append_single, hq]

theorem lookupA_setdefaultA_ne {α β : Type} [DecidableEq α] (l : List (α × β)) {q q' : α} (w : β) (h : q' ≠ q) :
    lookupA (setdefaultA l q w) q' = lookupA l q' := by
  unfold setdefaultA
  cases hq : lookupA l q with
  | some v => rfl
  | none =>
    rw [lookupA_append_single]
    cases hq' : lookupA l q' with
    | some v => rfl
    | none => simp [h]

theorem map_fst_setdefaultA {α β : Type} [DecidableEq α] (l : List (α × β)) (q : α) (w : β) :
    (setdefaultA l q w).map Prod.fst =
      if (lookupA l q).isSome then l.map Prod.fst else l.map Prod.fst ++ [q] := by
  unfold setdefaultA
  cases hq : lookupA l q with
  | some v => simp
  | none => simp

theorem lookupA_mem {α β : Type} [DecidableEq α] {l : List (α × β)} {q : α} {v : β}
    (h : lookupA l q = some v) : (q, v) ∈ l := by
  induction l with
  | nil => simp [lookupA] at h
  | cons p rest ih =>
    obtain ⟨k, w⟩ := p
    by_cases hk : q = k
    · subst hk
      simp [lookupA] at h
      simp [h]
    · simp only [lookupA, if_neg hk] at h
      simp [ih h]

theorem lookup2_update2_self (t : Topology) (c : String) (g : Guid) (l : List Guid) :
    lookup2 (update2 t c g l) c g = (lookup2 t c g).map (fun _ => l) := by
  unfold update2 lookup2
  cases hc : lookupA t c with
  | none => simp [hc]
  | some d => simp [hc, lookupA_updateA_self, lookupA_updateA_self d g l]

theorem lookup2_update2_ne (t : Topology) {c c' : String} {g g' : Guid} (l : List Guid)
    (h : ¬(c' = c ∧ g' = g)) :
    lookup2 (update2 t c g l) c' g' = lookup2 t c' g' := by
  unfold update2 lookup2
  cases hc : lookupA t c with
  | none => rfl
  | some d =>
    by_cases hcc : c' = c
    · subst hcc
      have hg : g' ≠ g := fun hg => h ⟨rfl, hg⟩
      simp [lookupA_updateA_self, hc, lookupA_updateA_ne d l hg]
    · simp [lookupA_updateA_ne t _ hcc]

theorem lookup2_update2_isSome (t : Topology) (c c' : String) (g g' : Guid) (l : List Guid) :
    (lookup2 (update2 t c g l) c' g').isSome = (lookup2 t c' g').isSome := by
  by_cases h : c' = c ∧ g' = g
  · obtain ⟨h1, h2⟩ := h
    subst h1; subst h2
    rw [lookup2_update2_self]
    cases lookup2 t c' g' <;> simp
  · rw [lookup2_update2_ne t l h]

theorem lookup2_setdefault2_self (t : Topology) (c : String) (g : Guid) :
    lookup2 (setdefault2 t c g) c g = some ((lookup2 t c g).getD []) := by
  unfold setdefault2 lookup2
  cases hc : lookupA t c with
  | none =>
    rw [lookupA_append_single]
    simp [hc, lookupA]
  | some d =>
    simp [hc, lookupA_updateA_self, lookupA_setdefaultA_self]

theorem lookup2_setdefault2_ne (t : Topology) {c c' : String} {g g' : Guid}
    (h : ¬(c' = c ∧ g' = g)) :
    lookup2 (setdefault2 t c g) c' g' = lookup2 t c' g' := by
  unfold setdefault2 lookup2
  cases hc : lookupA t c with
  | none =>
    rw [lookupA_append_single]
    by_cases hcc : c' = c
    · subst hcc
      have hg : g' ≠ g := fun hg => h ⟨rfl, hg⟩
      simp [hc, lookupA, hg]
    · cases hc' : lookupA t c' with
      | some d => rfl
      | none => simp [hcc]
  | some d =>
    by_cases hcc : c' = c
    · subst hcc
      have hg : g' ≠ g := fun hg => h ⟨rfl, hg⟩
      simp [hc, lookupA_updateA_self, lookupA_setdefaultA_ne d _ hg]
    · simp [lookupA_updateA_ne t _ hcc]

theorem setdefault2_of_isSome {t : Topology} {c : String} {g : Guid}
    (h : (lookup2 t c g).isSome) : setdefault2 t c g = t := by
  unfold setdefault2
  unfold lookup2 at h
  cases hc : lookupA t c with
  | none => simp [hc] at h
  | some d =>
    simp only [hc, Option.some_bind] at h
    simp only [hc]
    rw [setdefaultA_of_isSome _ h]
    exact updateA_lookup_self t hc

theorem topoGuids_updateA_eq (t : Topology) (c : String) (D : ClassDict)
    (h : ∀ d, lookupA t c = some d → D.map Prod.fst = d.map Prod.fst) :
    topoGuids (updateA t c D) = topoGuids t := by
  induction t with
  | nil => rfl
  | cons p rest ih =>
    obtain ⟨k, v⟩ := p
    by_cases hk : c = k
    · subst hk
      have hv := h v (by simp [lookupA])
      have heq : updateA ((c, v) :: rest) c D = (c, D) :: rest := by
        simp [updateA]
      rw [heq]
      simp only [topoGuids, List.flatMap_cons, hv]
    · have ih' := ih (fun d hd => h d (by simp only [lookupA, if_neg hk]; exact hd))
      have heq : updateA ((k, v) :: rest) c D = (k, v) :: updateA rest c D := by
        simp [updateA, hk]
      rw [heq]
      simp only [topoGuids, List.flatMap_cons] at ih' ⊢
      rw [ih']

theorem topoGuids_update2 (t : Topology) (c : String) (g : Guid) (l : List Guid) :
    topoGuids (update2 t c g l) = topoGuids t := by
  unfold update2
  cases hc : lookupA t c with
  | none => rfl
  | some d =>
    apply topoGuids_updateA_eq
    intro d' hd'
    rw [hc] at hd'
    cases hd'
    exact map_fst_updateA d g l

theorem mem_topoGuids_of_isSome {t : Topology} {c : String} {g : Guid}
    (h : (lookup2 t c g).isSome) : g ∈ topoGuids t := by
  unfold lookup2 at h
  cases hc : lookupA t c with
  | none => simp [hc] at h
  | some d =>
    simp only [hc, Option.some_bind] at h
    unfold topoGuids
    rw [List.mem_flatMap]
    exact ⟨(c, d), lookupA_mem hc, mem_fst_of_lookupA_isSome h⟩

theorem lookup2_eq_none_of_not_mem_topoGuids {t : Topology} {g : Guid}
    (h : g ∉ topoGuids t) (c : String) : lookup2 t c g = none := by
  cases hl : lookup2 t c g with
  | none => rfl
  | some l => exact absurd (mem_topoGuids_of_isSome (by rw [hl]; rfl)) h

theorem topoGuids_updateA_mono (t : Topology) (c : String) (D : ClassDict)
    (h : ∀ d, lookupA t c = some d → ∀ x, x ∈ d.map Prod.fst → x ∈ D.map Prod.fst)
    {x : Guid} (hx : x ∈ topoGuids t) : x ∈ topoGuids (updateA t c D) := by
  induction t with
  | nil => simp [topoGuids] at hx
  | cons p rest ih =>
    obtain ⟨k, v⟩ := p
    simp only [topoGuids, List.flatMap_cons, List.mem_append] at hx
    by_cases hk : c = k
    · subst hk
      have hv := h v (by simp [lookupA])
      have heq : updateA ((c, v) :: rest) c D = (c, D) :: rest := by
        simp [updateA]
      rw [heq]
      simp only [topoGuids, List.flatMap_cons, List.mem_append]
      rcases hx with hx | hx
      · exact Or.inl (hv x hx)
      · exact Or.inr hx
    · have heq : updateA ((k, v) :: rest) c D = (k, v) :: updateA rest c D := by
        simp [updateA, hk]
      rw [heq]
      simp only [topoGuids, List.flatMap_cons, List.mem_append]
      rcases hx with hx | hx
      · exact Or.inl hx
      · exact Or.inr (ih (fun d hd => h d (by simp only [lookupA, if_neg hk]; exact hd)) hx)

theorem topoGuids_setdefault2_mono {t : Topology} {x : Guid} (c : String) (g : Guid)
    (h : x ∈ topoGuids t) : x ∈ topoGuids (setdefault2 t c g) := by
  unfold setdefault2
  cases hc : lookupA t c with
  | none =>
    unfold topoGuids at h ⊢
    rw [List.mem_flatMap] at h ⊢
    obtain ⟨p, hp, hx⟩ := h
    exact ⟨p, by simp [hp], hx⟩
  | some d =>
    apply topoGuids_updateA_mono
    · intro d' hd' x' hx'
      rw [hc] at hd'
      injection hd' with hdd
      subst hdd
      rw [map_fst_setdefaultA]
      by_cases hs : (lookupA d g).isSome
      · simpa [hs] using hx'
      · simp only [Bool.not_eq_true] at hs
        simp [hs, hx']
    · exact h

theorem update2_lookup_self {t : Topology} {c : String} {g : Guid} {l : List Guid}
    (h : lookup2 t c g = some l) : update2 t c g l = t := by
  unfold lookup2 at h
  unfold update2
  cases hc : lookupA t c with
  | none => rfl
  | some d =>
    rw [hc] at h
    simp only [Option.some_bind] at h
    simp only [hc]
    rw [updateA_lookup_self d h]
    exact updateA_lookup_self t hc

theorem topoInv_nil : TopoInv [] := by
  refine ⟨?_, ?_, ?_, ?_⟩ <;> intro c1 <;> intros <;> simp_all [lookup2, lookupA]

/-- Replacing the adjacency lists of two distinct registered keys by `L1` /
    `L2`, where `L1` relates to the old list and the other key's GUID by the
    given membership specification (covering both the guarded double-append
    of a link and the double-removal of an unlink, `e` being the presence of
    the edge afterwards), preserves all four invariants. -/

theorem TopoInv_pair_update (t : Topology) (c1 : String) (g1 : Guid) (c2 : String) (g2 : Guid)
    (l1 l2 L1 L2 : List Guid) (e : Prop)
    (hInv : TopoInv t)
    (h1 : lookup2 t c1 g1 = some l1) (h2 : lookup2 t c2 g2 = some l2)
    (hne : ¬(c1 = c2 ∧ g1 = g2))
    (hL1 : ∀ x, x ∈ L1 ↔ ((x ∈ l1 ∧ x ≠ g2) ∨ (x = g2 ∧ e)))
    (hL2 : ∀ x, x ∈ L2 ↔ ((x ∈ l2 ∧ x ≠ g1) ∨ (x = g1 ∧ e)))
    (hN1 : L1.Nodup) (hN2 : L2.Nodup) :
    TopoInv (update2 (update2 t c1 g1 L1) c2 g2 L2) := by
  obtain ⟨hK, hN, hM, hS⟩ := hInv
  have h1s : (lookup2 t c1 g1).isSome := by rw [h1]; rfl
  have h2s : (lookup2 t c2 g2).isSome := by rw [h2]; rfl
  have hg12 : g1 ≠ g2 := by
    intro hgg
    exact hne ⟨hK c1 c2 g2 (hgg ▸ h1s) h2s, hgg⟩
  have hkey : ∀ c g, lookup2 (update2 (update2 t c1 g1 L1) c2 g2 L2) c g =
      if c2 = c ∧ g2 = g then some L2
      else if c1 = c ∧ g1 = g then some L1
      else lookup2 t c g := by
    intro c g
    by_cases hA : c2 = c ∧ g2 = g
    · obtain ⟨hA1, hA2⟩ := hA
      subst hA1; subst hA2
      rw [lookup2_update2_self]
      rw [lookup2_update2_ne t L1 (fun hx => hne ⟨hx.1.symm, hx.2.symm⟩)]
      rw [h2]
      simp
    · rw [lookup2_update2_ne _ L2 (fun hx => hA ⟨hx.1.symm, hx.2.symm⟩)]
      by_cases hB : c1 = c ∧ g1 = g
      · obtain ⟨hB1, hB2⟩ := hB
        subst hB1; subst hB2
        rw [lookup2_update2_self, h1]
        simp [hA]
      · rw [lookup2_update2_ne t L1 (fun hx => hB ⟨hx.1.symm, hx.2.symm⟩)]
        simp [hA, hB]
  have hby2 : ∀ c g, (lookup2 t c g).isSome → ¬(c2 = c ∧ g2 = g) → g ≠ g2 :=
    fun c g hs hn hgg => hn ⟨(hK c c2 g2 (hgg ▸ hs) h2s).symm, hgg.symm⟩
  have hby1 : ∀ c g, (lookup2 t c g).isSome → ¬(c1 = c ∧ g1 = g) → g ≠ g1 :=
    fun c g hs hn hgg => hn ⟨(hK c c1 g1 (hgg ▸ hs) h1s).symm, hgg.symm⟩
  have hpres : ∀ c g, (lookup2 (update2 (update2 t c1 g1 L1) c2 g2 L2) c g).isSome →
      (lookup2 t c g).isSome := by
    intro c g h
    rw [hkey] at h
    split_ifs at h with hA hB
    · exact hA.1 ▸ hA.2 ▸ h2s
    · exact hB.1 ▸ hB.2 ▸ h1s
    · exact h
  refine ⟨?_, ?_, ?_, ?_⟩
  · -- KGU
    intro cX cY g hX hY
    exact hK cX cY g (hpres _ _ hX) (hpres _ _ hY)
  · -- NodupAdj
    intro c g l hl
    rw [hkey] at hl
    split_ifs at hl with hA hB
    · injection hl with he; subst he; exact hN2
    · injection hl with he; subst he; exact hN1
    · exact hN c g l hl
  · -- MentionedReg
    intro c g l hl x hx
    have htg : topoGuids (update2 (update2 t c1 g1 L1) c2 g2 L2) = topoGuids t := by
      rw [topoGuids_update2, topoGuids_update2]
    rw [htg]
    rw [hkey] at hl
    split_ifs at hl with hA hB
    · injection hl with he; subst he
      rcases (hL2 x).mp hx with ⟨hxl, _⟩ | ⟨hxg, _⟩
      · exact hM c2 g2 l2 h2 x hxl
      · exact hxg ▸ mem_topoGuids_of_isSome h1s
    · injection hl with he; subst he
      rcases (hL1 x).mp hx with ⟨hxl, _⟩ | ⟨hxg, _⟩
      · exact hM c1 g1 l1 h1 x hxl
      · exact hxg ▸ mem_topoGuids_of_isSome h2s
    · exact hM c g l hl x hx
  · -- SymAdj
    intro cX gX lX cY gY lY hlX hlY
    rw [hkey] at hlX hlY
    split_ifs at hlX with hXA hXB
    · -- X is the second key
      obtain ⟨rfl, rfl⟩ := hXA
      injection hlX with he; subst he
      split_ifs at hlY with hYA hYB
      · obtain ⟨rfl, rfl⟩ := hYA
        injection hlY with he; subst he
        exact Iff.rfl
      · obtain ⟨rfl, rfl⟩ := hYB
        injection hlY with he; subst he
        constructor
        · intro h
          rcases (hL2 g1).mp h with ⟨_, hne'⟩ | ⟨_, he⟩
          · exact absurd rfl hne'
          · exact (hL1 g2).mpr (Or.inr ⟨rfl, he⟩)
        · intro h
          rcases (hL1 g2).mp h with ⟨_, hne'⟩ | ⟨_, he⟩
          · exact absurd rfl hne'
          · exact (hL2 g1).mpr (Or.inr ⟨rfl, he⟩)
      · have hYs : (lookup2 t cY gY).isSome := by rw [hlY]; rfl
        have hgY1 : gY ≠ g1 := hby1 cY gY hYs hYB
        constructor
        · intro h
          rcases (hL2 gY).mp h with ⟨hm, _⟩ | ⟨hg, _⟩
          · exact (hS c2 g2 l2 cY gY lY h2 hlY).mp hm
          · exact absurd hg hgY1
        · intro h
          refine (hL2 gY).mpr (Or.inl ⟨?_, hgY1⟩)
          exact (hS c2 g2 l2 cY gY lY h2 hlY).mpr h
    · -- X is the first key
      obtain ⟨rfl, rfl⟩ := hXB
      injection hlX with he; subst he
      split_ifs at hlY with hYA hYB
      · obtain ⟨rfl, rfl⟩ := hYA
        injection hlY with he; subst he
        constructor
        · intro h
          rcases (hL1 g2).mp h with ⟨_, hne'⟩ | ⟨_, he⟩
          · exact absurd rfl hne'
          · exact (hL2 g1).mpr (Or.inr ⟨rfl, he⟩)
        · intro h
          rcases (hL2 g1).mp h with ⟨_, hne'⟩ | ⟨_, he⟩
          · exact absurd rfl hne'
          · exact (hL1 g2).mpr (Or.inr ⟨rfl, he⟩)
      · obtain ⟨rfl, rfl⟩ := hYB
        injection hlY with he; subst he
        exact Iff.rfl
      · have hYs : (lookup2 t cY gY).isSome := by rw [hlY]; rfl
        have hgY2 : gY ≠ g2 := hby2 cY gY hYs hYA
        constructor
        · intro h
          rcases (hL1 gY).mp h with ⟨hm, _⟩ | ⟨hg, _⟩
          · exact (hS c1 g1 l1 cY gY lY h1 hlY).mp hm
          · exact absurd hg hgY2
        · intro h
          refine (hL1 gY).mpr (Or.inl ⟨?_, hgY2⟩)
          exact (hS c1 g1 l1 cY gY lY h1 hlY).mpr h
    · -- X is a bystander key
      have hXs : (lookup2 t cX gX).isSome := by rw [hlX]; rfl
      split_ifs at hlY with hYA hYB
      · obtain ⟨rfl, rfl⟩ := hYA
        injection hlY with he; subst he
        have hgX1 : gX ≠ g1 := hby1 cX gX hXs hXB
        constructor
        · intro h
          refine (hL2 gX).mpr (Or.inl ⟨?_, hgX1⟩)
          exact (hS cX gX lX c2 g2 l2 hlX h2).mp h
        · intro h
          rcases (hL2 gX).mp h with ⟨hm, _⟩ | ⟨hg, _⟩
          · exact (hS cX gX lX c2 g2 l2 hlX h2).mpr hm
          · exact absurd hg hgX1
      · obtain ⟨rfl, rfl⟩ := hYB
        injection hlY with he; subst he
        have hgX2 : gX ≠ g2 := hby2 cX gX hXs hXA
        constructor
        · intro h
          refine (hL1 gX).mpr (Or.inl ⟨?_, hgX2⟩)
          exact (hS cX gX lX c1 g1 l1 hlX h1).mp h
        · intro h
          rcases (hL1 gX).mp h with ⟨hm, _⟩ | ⟨hg, _⟩
          · exact (hS cX gX lX c1 g1 l1 hlX h1).mpr hm
          · exact absurd hg hgX2
      · exact hS cX gX lX cY gY lY hlX hlY

/-- Appending a key's own GUID to its own adjacency list (the self-link case
    of `register_link`, where `self` and `other` alias one list) preserves
    the invariants. -/

theorem TopoInv_self_update (t : Topology) (c1 : String) (g1 : Guid) (l1 L : List Guid)
    (hInv : TopoInv t) (h1 : lookup2 t c1 g1 = some l1)
    (hL : ∀ x, x ∈ L ↔ (x ∈ l1 ∨ x = g1)) (hNd : L.Nodup) :
    TopoInv (update2 t c1 g1 L) := by
  obtain ⟨hK, hN, hM, hS⟩ := hInv
  have h1s : (lookup2 t c1 g1).isSome := by rw [h1]; rfl
  have hkey : ∀ c g, lookup2 (update2 t c1 g1 L) c g =
      if c1 = c ∧ g1 = g then some L else lookup2 t c g := by
    intro c g
    by_cases hA : c1 = c ∧ g1 = g
    · obtain ⟨hA1, hA2⟩ := hA
      subst hA1; subst hA2
      rw [lookup2_update2_self, h1]
      simp
    · rw [lookup2_update2_ne t L (fun hx => hA ⟨hx.1.symm, hx.2.symm⟩)]
      simp [hA]
  have hby1 : ∀ c g, (lookup2 t c g).isSome → ¬(c1 = c ∧ g1 = g) → g ≠ g1 :=
    fun c g hs hn hgg => hn ⟨(hK c c1 g1 (hgg ▸ hs) h1s).symm, hgg.symm⟩
  have hpres : ∀ c g, (lookup2 (update2 t c1 g1 L) c g).isSome → (lookup2 t c g).isSome := by
    intro c g h
    rw [hkey] at h
    split_ifs at h with hA
    · exact hA.1 ▸ hA.2 ▸ h1s
    · exact h
  refine ⟨?_, ?_, ?_, ?_⟩
  · intro cX cY g hX hY
    exact hK cX cY g (hpres _ _ hX) (hpres _ _ hY)
  · intro c g l hl
    rw [hkey] at hl
    split_ifs at hl with hA
    · injection hl with he; subst he; exact hNd
    · exact hN c g l hl
  · intro c g l hl x hx
    rw [topoGuids_update2]
    rw [hkey] at hl
    split_ifs at hl with hA
    · injection hl with he; subst he
      rcases (hL x).mp hx with hxl | hxg
      · exact hM c1 g1 l1 h1 x hxl
      · exact hxg ▸ mem_topoGuids_of_isSome h1s
    · exact hM c g l hl x hx
  · intro cX gX lX cY gY lY hlX hlY
    rw [hkey] at hlX hlY
    split_ifs at hlX with hXA
    · obtain ⟨rfl, rfl⟩ := hXA
      injection hlX with he; subst he
      split_ifs at hlY with hYA
      · obtain ⟨rfl, rfl⟩ := hYA
        injection hlY with he; subst he
        exact Iff.rfl
      · have hYs : (lookup2 t cY gY).isSome := by rw [hlY]; rfl
        have hgY1 : gY ≠ g1 := hby1 cY gY hYs hYA
        constructor
        · intro h
          rcases (hL gY).mp h with hm | hg
          · exact (hS c1 g1 l1 cY gY lY h1 hlY).mp hm
          · exact absurd hg hgY1
        · intro h
          exact (hL gY).mpr (Or.inl ((hS c1 g1 l1 cY gY lY h1 hlY).mpr h))
    · have hXs : (lookup2 t cX gX).isSome := by rw [hlX]; rfl
      split_ifs at hlY with hYA
      · obtain ⟨rfl, rfl⟩ := hYA
        injection hlY with he; subst he
        have hgX1 : gX ≠ g1 := hby1 cX gX hXs hXA
        constructor
        · intro h
          exact (hL gX).mpr (Or.inl ((hS cX gX lX c1 g1 l1 hlX h1).mp h))
        · intro h
          rcases (hL gX).mp h with hm | hg
          · exact (hS cX gX lX c1 g1 l1 hlX h1).mpr hm
          · exact absurd hg hgX1
      · exact hS cX gX lX cY gY lY hlX hlY

theorem linkPair_alias_eq {t : Topology} {c1 : String} {g1 : Guid} {l1 : List Guid}
    (h1 : lookup2 t c1 g1 = some l1) :
    linkPair t c1 g1 c1 g1 = if g1 ∈ l1 then t else update2 t c1 g1 (l1 ++ [g1]) := by
  have e1 : getL t c1 g1 = l1 := by simp [getL, h1]
  simp only [linkPair, e1]
  by_cases hm : g1 ∈ l1
  · simp only [if_pos hm]
    rw [e1, if_pos hm]
  · simp only [if_neg hm]
    have hl' : lookup2 (update2 t c1 g1 (l1 ++ [g1])) c1 g1 = some (l1 ++ [g1]) := by
      rw [lookup2_update2_self, h1]; rfl
    have e2 : getL (update2 t c1 g1 (l1 ++ [g1])) c1 g1 = l1 ++ [g1] := by
      simp [getL, hl']
    rw [e2, if_pos (by simp : g1 ∈ l1 ++ [g1])]

theorem linkPair_eq {t : Topology} {c1 : String} {g1 : Guid} {c2 : String} {g2 : Guid}
    {l1 l2 : List Guid}
    (h1 : lookup2 t c1 g1 = some l1) (h2 : lookup2 t c2 g2 = some l2)
    (hne : ¬(c1 = c2 ∧ g1 = g2)) :
    linkPair t c1 g1 c2 g2 =
      update2 (update2 t c1 g1 (if g2 ∈ l1 then l1 else l1 ++ [g2])) c2 g2
        (if g1 ∈ l2 then l2 else l2 ++ [g1]) := by
  have e1 : getL t c1 g1 = l1 := by simp [getL, h1]
  have hsymne : ¬(c2 = c1 ∧ g2 = g1) := fun hx => hne ⟨hx.1.symm, hx.2.symm⟩
  simp only [linkPair, e1]
  by_cases hm1 : g2 ∈ l1
  · simp only [if_pos hm1]
    rw [update2_lookup_self h1]
    have e2 : getL t c2 g2 = l2 := by simp [getL, h2]
    rw [e2]
    by_cases hm2 : g1 ∈ l2
    · simp only [if_pos hm2]
      rw [update2_lookup_self h2]
    · simp only [if_neg hm2]
  · simp only [if_neg hm1]
    have hl2' : lookup2 (update2 t c1 g1 (l1 ++ [g2])) c2 g2 = some l2 := by
      rw [lookup2_update2_ne t _ hsymne, h2]
    have e2 : getL (update2 t c1 g1 (l1 ++ [g2])) c2 g2 = l2 := by simp [getL, hl2']
    rw [e2]
    by_cases hm2 : g1 ∈ l2
    · simp only [if_pos hm2]
      rw [update2_lookup_self hl2']
    · simp only [if_neg hm2]

theorem TopoInv_linkPair {t : Topology} {c1 : String} {g1 : Guid} {c2 : String} {g2 : Guid}
    {l1 l2 : List Guid} (hInv : TopoInv t)
    (h1 : lookup2 t c1 g1 = some l1) (h2 : lookup2 t c2 g2 = some l2) :
    TopoInv (linkPair t c1 g1 c2 g2) := by
  by_cases halias : c1 = c2 ∧ g1 = g2
  · obtain ⟨rfl, rfl⟩ := halias
    rw [h1] at h2
    injection h2 with he
    subst he
    rw [linkPair_alias_eq h1]
    by_cases hm : g1 ∈ l1
    · rw [if_pos hm]; exact hInv
    · rw [if_neg hm]
      apply TopoInv_self_update t c1 g1 l1 (l1 ++ [g1]) hInv h1
      · intro x; simp
      · have hnd : l1.Nodup := hInv.2.1 c1 g1 l1 h1
        simp [List.nodup_append, hnd, hm]
  · rw [linkPair_eq h1 h2 halias]
    apply TopoInv_pair_update t c1 g1 c2 g2 l1 l2 _ _ True hInv h1 h2 halias
    · intro x
      by_cases hm : g2 ∈ l1 <;> by_cases hx : x = g2 <;> simp [hm, hx]
    · intro x
      by_cases hm : g1 ∈ l2 <;> by_cases hx : x = g1 <;> simp [hm, hx]
    · by_cases hm : g2 ∈ l1
      · rw [if_pos hm]; exact hInv.2.1 c1 g1 l1 h1
      · rw [if_neg hm]
        have hnd : l1.Nodup := hInv.2.1 c1 g1 l1 h1
        simp [List.nodup_append, hnd, hm]
    · by_cases hm : g1 ∈ l2
      · rw [if_pos hm]; exact hInv.2.1 c2 g2 l2 h2
      · rw [if_neg hm]
        have hnd : l2.Nodup := hInv.2.1 c2 g2 l2 h2
        simp [List.nodup_append, hnd, hm]

/-- After the mutation core of `register_link`, each node's GUID is in the
    other's adjacency list (no invariant needed). -/

theorem linkPair_mem {t : Topology} {c1 : String} {g1 : Guid} {c2 : String} {g2 : Guid}
    {l1 l2 : List Guid}
    (h1 : lookup2 t c1 g1 = some l1) (h2 : lookup2 t c2 g2 = some l2) :
    g2 ∈ getL (linkPair t c1 g1 c2 g2) c1 g1 ∧
      g1 ∈ getL (linkPair t c1 g1 c2 g2) c2 g2 := by
  by_cases halias : c1 = c2 ∧ g1 = g2
  · obtain ⟨rfl, rfl⟩ := halias
    rw [h1] at h2
    injection h2 with he
    subst he
    rw [linkPair_alias_eq h1]
    by_cases hm : g1 ∈ l1
    · rw [if_pos hm]
      have e1 : getL t c1 g1 = l1 := by simp [getL, h1]
      rw [e1]
      exact ⟨hm, hm⟩
    · rw [if_neg hm]
      have hl' : lookup2 (update2 t c1 g1 (l1 ++ [g1])) c1 g1 = some (l1 ++ [g1]) := by
        rw [lookup2_update2_self, h1]; rfl
      have e2 : getL (update2 t c1 g1 (l1 ++ [g1])) c1 g1 = l1 ++ [g1] := by
        simp [getL, hl']
      rw [e2]
      constructor <;> simp
  · rw [linkPair_eq h1 h2 halias]
    have hsymne : ¬(c2 = c1 ∧ g2 = g1) := fun hx => halias ⟨hx.1.symm, hx.2.symm⟩
    have hk2 : lookup2 (update2 t c1 g1 (if g2 ∈ l1 then l1 else l1 ++ [g2])) c2 g2
        = some l2 := by
      rw [lookup2_update2_ne t _ hsymne, h2]
    have hk2' : lookup2 (update2 (update2 t c1 g1 (if g2 ∈ l1 then l1 else l1 ++ [g2]))
        c2 g2 (if g1 ∈ l2 then l2 else l2 ++ [g1])) c2 g2
        = some (if g1 ∈ l2 then l2 else l2 ++ [g1]) := by
      rw [lookup2_update2_self, hk2]; rfl
    have hk1' : lookup2 (update2 (update2 t c1 g1 (if g2 ∈ l1 then l1 else l1 ++ [g2]))
        c2 g2 (if g1 ∈ l2 then l2 else l2 ++ [g1])) c1 g1
        = some (if g2 ∈ l1 then l1 else l1 ++ [g2]) := by
      rw [lookup2_update2_ne _ _ halias, lookup2_update2_self, h1]; rfl
    constructor
    · rw [getL, hk1']
      by_cases hm : g2 ∈ l1 <;> simp [hm]
    · rw [getL, hk2']
      by_cases hm : g1 ∈ l2 <;> simp [hm]

theorem lookupA_isSome_of_mem_fst {α β : Type} [DecidableEq α]
    {l : List (α × β)} {q : α} (h : q ∈ l.map Prod.fst) :
    (lookupA l q).isSome := by
  induction l with
  | nil => simp at h
  | cons p rest ih =>
    obtain ⟨k, v⟩ := p
    by_cases hk : q = k
    · simp [lookupA, hk]
    · simp only [List.map_cons, List.mem_cons] at h
      rcases h with h | h
      · exact absurd h hk
      · simp only [lookupA, if_neg hk]
        exact ih h

/-!  ## Invariant preservation by the operations -/

theorem TopoInv_register_link (t : Topology) (a b : SimObject) (hInv : TopoInv t) :
    TopoInv (register_link t a b).1 := by
  unfold register_link
  by_cases hA : (lookup2 t a.class_name a.guid).isNone
  · simp only [if_pos hA]
    exact hInv
  · by_cases hB : (lookup2 t b.class_name b.guid).isNone
    · simp only [if_neg hA, if_pos hB]
      exact hInv
    · simp only [if_neg hA, if_neg hB]
      cases h1 : lookup2 t a.class_name a.guid with
      | none => rw [h1] at hA; simp at hA
      | some l1 =>
        cases h2 : lookup2 t b.class_name b.guid with
        | none => rw [h2] at hB; simp at hB
        | some l2 => exact TopoInv_linkPair hInv h1 h2

theorem register_link_err_state (t : Topology) (a b : SimObject)
    (h : (register_link t a b).2.isSome) : (register_link t a b).1 = t := by
  unfold register_link at *
  by_cases hA : (lookup2 t a.class_name a.guid).isNone
  · simp [hA]
  · by_cases hB : (lookup2 t b.class_name b.guid).isNone
    · simp [hA, hB]
    · simp [hA, hB] at h

/-- `deregister_link` on any object built by the program: `self._sim` was
    never assigned, so the very first attribute access raises
    `AttributeError` before any mutation. -/

theorem deregister_link_unset_sim (t : Topology) (a b : SimObject)
    (h : a._sim = none) :
    deregister_link t a b = (t, some PyErr.attributeError) := by
  unfold deregister_link
  rw [h]

theorem TopoInv_ue_remove_phase (t : Topology) (g lg : Guid) (hInv : TopoInv t)
    (hUE : (lookup2 t "AIMMeeUE" g).isSome) :
    TopoInv (ue_remove_phase t g lg).1 := by
  unfold ue_remove_phase
  split
  · exact hInv
  · rename_i ll hcell
    split
    · rename_i hb
      have hUE1 : (lookup2 (update2 t "AIMMeeCell" lg (ll.filter fun x => x != g))
          "AIMMeeUE" g).isSome := by
        rw [lookup2_update2_isSome]
        exact hUE
      rw [hb] at hUE1
      simp at hUE1
    · rename_i ul hb
      have hUEt : lookup2 t "AIMMeeUE" g = some ul := by
        rw [lookup2_update2_ne t _ (fun hx => absurd hx.1 (by decide))] at hb
        exact hb
      refine TopoInv_pair_update t "AIMMeeCell" lg "AIMMeeUE" g ll ul _ _ False hInv
        hcell hUEt (fun hx => absurd hx.1 (by decide)) ?_ ?_ ?_ ?_
      · intro x; simp [List.mem_filter]
      · intro x; simp [List.mem_filter]
      · exact List.Nodup.filter _ (hInv.2.1 "AIMMeeCell" lg ll hcell)
      · exact List.Nodup.filter _ (hInv.2.1 "AIMMeeUE" g ul hUEt)

theorem ue_remove_phase_presence (t : Topology) (g lg : Guid) (c' : String) (g' : Guid) :
    (lookup2 (ue_remove_phase t g lg).1 c' g').isSome = (lookup2 t c' g').isSome := by
  unfold ue_remove_phase
  split
  · rfl
  · rename_i ll hcell
    split
    · exact lookup2_update2_isSome t _ c' _ g' _
    · rw [lookup2_update2_isSome, lookup2_update2_isSome]

theorem TopoInv_ue_add_phase (t : Topology) (g : Guid) (cur : Option Guid)
    (hInv : TopoInv t) (hUE : (lookup2 t "AIMMeeUE" g).isSome) :
    TopoInv (ue_add_phase t g cur).1 := by
  unfold ue_add_phase
  split
  · exact hInv
  · rename_i cg
    split
    · exact hInv
    · rename_i cl hcell
      split
      · rename_i hb
        have hUE1 : (lookup2 (if g ∈ cl then t
            else update2 t "AIMMeeCell" cg (cl ++ [g])) "AIMMeeUE" g).isSome := by
          by_cases hm : g ∈ cl
          · simpa [hm] using hUE
          · simp only [if_neg hm]
            rw [lookup2_update2_isSome]
            exact hUE
        rw [hb] at hUE1
        simp at hUE1
      · obtain ⟨lue, hlue⟩ := Option.isSome_iff_exists.mp hUE
        exact TopoInv_linkPair hInv hcell hlue

theorem TopoInv_update_ue_topology (t : Topology) (u : UEState) (hInv : TopoInv t)
    (hu : ∀ g, u.guid = some g → (lookup2 t "AIMMeeUE" g).isSome) :
    TopoInv (update_ue_topology t u).1 := by
  unfold update_ue_topology
  split
  · exact hInv
  · rename_i g hg
    split
    · exact hInv
    · have hUE := hu g hg
      split
      · exact TopoInv_ue_add_phase t g u.current_cell_guid hInv hUE
      · rename_i lg hlast
        have hInv2 : TopoInv (ue_remove_phase t g lg).1 :=
          TopoInv_ue_remove_phase t g lg hInv hUE
        have hUE2 : (lookup2 (ue_remove_phase t g lg).1 "AIMMeeUE" g).isSome := by
          rw [ue_remove_phase_presence]
          exact hUE
        split
        · rename_i t2 e2 hrp
          rw [hrp] at hInv2
          exact hInv2
        · rename_i t2 hrp
          rw [hrp] at hInv2 hUE2
          exact TopoInv_ue_add_phase t2 g u.current_cell_guid hInv2 hUE2

/-- Registration preserves the topology invariants, given either an already
    present entry (re-registration, e.g. the second `add_to_sim` performed by
    `make_AntennaPanel`) or a globally fresh GUID — which is what CPython's
    `id()` guarantees for a newly constructed object, every registered node
    being kept alive by `guid_map`. -/

theorem TopoInv_setdefault2 (t : Topology) (c : String) (g : Guid) (hInv : TopoInv t)
    (hfresh : (lookup2 t c g).isSome = true ∨ g ∉ topoGuids t) :
    TopoInv (setdefault2 t c g) := by
  rcases hfresh with hs | hf
  · rw [setdefault2_of_isSome hs]
    exact hInv
  · have hnone : ∀ c', lookup2 t c' g = none :=
      fun c' => lookup2_eq_none_of_not_mem_topoGuids hf c'
    have hkey : ∀ c' g', lookup2 (setdefault2 t c g) c' g' =
        if c = c' ∧ g = g' then some [] else lookup2 t c' g' := by
      intro c' g'
      by_cases hA : c = c' ∧ g = g'
      · obtain ⟨hA1, hA2⟩ := hA
        subst hA1; subst hA2
        rw [lookup2_setdefault2_self, hnone c]
        simp
      · rw [lookup2_setdefault2_ne t (fun hx => hA ⟨hx.1.symm, hx.2.symm⟩)]
        simp [hA]
    obtain ⟨hK, hN, hM, hS⟩ := hInv
    refine ⟨?_, ?_, ?_, ?_⟩
    · intro c1' c2' g' h1' h2'
      rw [hkey] at h1' h2'
      by_cases hA : c = c1' ∧ g = g'
      · by_cases hB : c = c2' ∧ g = g'
        · exact hA.1.symm.trans hB.1
        · obtain ⟨hA1, hA2⟩ := hA
          subst hA2
          rw [if_neg hB, hnone c2'] at h2'
          simp at h2'
      · rw [if_neg hA] at h1'
        by_cases hB : c = c2' ∧ g = g'
        · obtain ⟨hB1, hB2⟩ := hB
          subst hB2
          rw [hnone c1'] at h1'
          simp at h1'
        · rw [if_neg hB] at h2'
          exact hK c1' c2' g' h1' h2'
    · intro c' g' l hl
      rw [hkey] at hl
      split_ifs at hl with hA
      · injection hl with he; subst he
        exact List.nodup_nil
      · exact hN c' g' l hl
    · intro c' g' l hl x hx
      rw [hkey] at hl
      split_ifs at hl with hA
      · injection hl with he; subst he
        simp at hx
      · exact topoGuids_setdefault2_mono c g (hM c' g' l hl x hx)
    · intro cX gX lX cY gY lY hlX hlY
      rw [hkey] at hlX hlY
      split_ifs at hlX with hXA
      · obtain ⟨hXc, hXg⟩ := hXA
        subst hXc; subst hXg
        injection hlX with he; subst he
        split_ifs at hlY with hYA
        · obtain ⟨hYc, hYg⟩ := hYA
          subst hYc; subst hYg
          injection hlY with he; subst he
          exact Iff.rfl
        · constructor
          · intro h
            simp at h
          · intro h
            exact absurd (hM cY gY lY hlY g h) hf
      · split_ifs at hlY with hYA
        · obtain ⟨hYc, hYg⟩ := hYA
          subst hYc; subst hYg
          injection hlY with he; subst he
          constructor
          · intro h
            exact absurd (hM cX gX lX hlX g h) hf
          · intro h
            simp at h
        · exact hS cX gX lX cY gY lY hlX hlY

theorem GMInv_setdefaultA {gm : List (Guid × SimObject)} (o : SimObject)
    (h : GMInv gm) : GMInv (setdefaultA gm o.guid o) := by
  obtain ⟨h1, h2⟩ := h
  unfold setdefaultA
  cases hq : lookupA gm o.guid with
  | some v => exact ⟨h1, h2⟩
  | none =>
    constructor
    · intro p hp
      rcases List.mem_append.mp hp with hp | hp
      · exact h1 p hp
      · simp at hp
        subst hp
        rfl
    · have hnm : o.guid ∉ gm.map Prod.fst := by
        intro hmem
        have := lookupA_isSome_of_mem_fst hmem
        rw [hq] at this
        simp at this
      simp [List.nodup_append, h2, hnm]

theorem gmInv_nil : GMInv [] := by
  constructor
  · intro p hp
    simp at hp
  · simp

/-- Master invariant: every reachable simulation state satisfies the
    topology invariants and the GUID-map invariant. -/

theorem simReach_inv {s : SimState} (h : SimReach s) : SimInv s := by
  induction h with
  | init => exact ⟨topoInv_nil, gmInv_nil⟩
  | add o hfresh h ih =>
    exact ⟨TopoInv_setdefault2 _ _ _ ih.1 hfresh, GMInv_setdefaultA o ih.2⟩
  | link a b h ih =>
    exact ⟨TopoInv_register_link _ a b ih.1, ih.2⟩
  | unlink a b ha h ih =>
    constructor
    · rw [deregister_link_unset_sim _ a b ha]
      exact ih.1
    · exact ih.2
  | ueTopo u hu h ih =>
    exact ⟨TopoInv_update_ue_topology _ u ih.1 hu, ih.2⟩

theorem update_cell_guid_run (u : UEState) (y x : Guid)
    (hcur : u.current_cell_guid = some x) (hxy : y ≠ x) :
    update_cell_guid u y =
      { u with last_cell_guid := some x, current_cell_guid := some y } := by
  unfold update_cell_guid
  rw [hcur, if_neg (by simpa using hxy)]

theorem ue_remove_phase_run (t : Topology) (g lg : Guid) (ll ul : List Guid)
    (hcell : lookup2 t "AIMMeeCell" lg = some ll)
    (hue : lookup2 (update2 t "AIMMeeCell" lg (ll.filter fun x => x != g))
      "AIMMeeUE" g = some ul) :
    ue_remove_phase t g lg =
      (update2 (update2 t "AIMMeeCell" lg (ll.filter fun x => x != g)) "AIMMeeUE" g
        (ul.filter fun x => x != lg), none) := by
  unfold ue_remove_phase
  split
  · rename_i hq
    rw [hcell] at hq
    cases hq
  · rename_i ll' hq
    rw [hcell] at hq
    injection hq with hq
    subst hq
    split
    · rename_i hq2
      rw [hue] at hq2
      cases hq2
    · rename_i ul' hq2
      rw [hue] at hq2
      injection hq2 with hq2
      subst hq2
      rfl

theorem ue_add_phase_run (t : Topology) (g cg : Guid) (cl : List Guid)
    (hcell : lookup2 t "AIMMeeCell" cg = some cl)
    (hue : (lookup2 (if g ∈ cl then t else update2 t "AIMMeeCell" cg (cl ++ [g]))
      "AIMMeeUE" g).isSome) :
    ue_add_phase t g (some cg) = (linkPair t "AIMMeeCell" cg "AIMMeeUE" g, none) := by
  obtain ⟨w, hw⟩ := Option.isSome_iff_exists.mp hue
  unfold ue_add_phase
  split
  · rename_i hq
    cases hq
  · rename_i cg' hq
    injection hq with hq
    subst hq
    split
    · rename_i hq2
      rw [hcell] at hq2
      cases hq2
    · rename_i cl' hq2
      rw [hcell] at hq2
      injection hq2 with hq2
      subst hq2
      split
      · rename_i hq3
        rw [hw] at hq3
        cases hq3
      · rfl

theorem update_ue_topology_run (t : Topology) (u : UEState) (g lg cg : Guid)
    (hg : u.guid = some g) (hlast : u.last_cell_guid = some lg)
    (hcur : u.current_cell_guid = some cg) (hne : lg ≠ cg) :
    update_ue_topology t u =
      (match ue_remove_phase t g lg with
       | (t2, some e) => (t2, some e)
       | (t2, none) => ue_add_phase t2 g (some cg)) := by
  unfold update_ue_topology
  rw [hg, hlast, hcur]
  show (if (some lg = some cg) then (t, none)
      else match ue_remove_phase t g lg with
        | (t2, some e) => (t2, some e)
        | (t2, none) => ue_add_phase t2 g (some cg)) = _
  rw [if_neg (by simpa using hne)]

theorem linkPair_lookup_ne {t : Topology} {c1 : String} {g1 : Guid} {c2 : String}
    {g2 : Guid} {l1 l2 : List Guid}
    (h1 : lookup2 t c1 g1 = some l1) (h2 : lookup2 t c2 g2 = some l2)
    {c : String} {g : Guid}
    (hne1 : ¬(c = c1 ∧ g = g1)) (hne2 : ¬(c = c2 ∧ g = g2)) :
    lookup2 (linkPair t c1 g1 c2 g2) c g = lookup2 t c g := by
  by_cases halias : c1 = c2 ∧ g1 = g2
  · obtain ⟨rfl, rfl⟩ := halias
    rw [h1] at h2
    injection h2 with he
    subst he
    rw [linkPair_alias_eq h1]
    by_cases hm : g1 ∈ l1
    · rw [if_pos hm]
    · rw [if_neg hm, lookup2_update2_ne t _ hne1]
  · rw [linkPair_eq h1 h2 halias]
    rw [lookup2_update2_ne _ _ hne2, lookup2_update2_ne t _ hne1]

theorem nodup_keys_eq {α β : Type} {l : List (α × β)} (h : (l.map Prod.fst).Nodup)
    {p q : α × β} (hp : p ∈ l) (hq : q ∈ l) (hk : p.1 = q.1) : p = q := by
  induction l with
  | nil => simp at hp
  | cons x rest ih =>
    simp only [List.map_cons, List.nodup_cons] at h
    obtain ⟨hx, hrest⟩ := h
    rcases List.mem_cons.mp hp with hp1 | hp1
    · rcases List.mem_cons.mp hq with hq1 | hq1
      · rw [hp1, hq1]
      · subst hp1
        have hmem : q.1 ∈ rest.map Prod.fst := List.mem_map_of_mem Prod.fst hq1
        rw [← hk] at hmem
        exact absurd hmem hx
    · rcases List.mem_cons.mp hq with hq1 | hq1
      · subst hq1
        have hmem : p.1 ∈ rest.map Prod.fst := List.mem_map_of_mem Prod.fst hp1
        rw [hk] at hmem
        exact absurd hmem hx
      · exact ih hrest hp1 hq1

/-- C1: Link symmetry invariant.  In every reachable state of one Simulation
    — i.e. after any sequence of registrations, `register_link` /
    `deregister_link` calls and UE re-attachment graph updates — for all
    registered nodes A and B, B's GUID appears in A's adjacency list iff A's
    GUID appears in B's; and immediately after a successful
    `register_link(A, B)` both memberships hold (so the equivalence holds
    with both sides true). -/

theorem C1_link_symmetry (s : SimState) (h : SimReach s) :
    (∀ c1 g1 l1 c2 g2 l2, lookup2 s.topology c1 g1 = some l1 →
        lookup2 s.topology c2 g2 = some l2 → (g2 ∈ l1 ↔ g1 ∈ l2))
    ∧ (∀ a b : SimObject, (register_link s.topology a b).2 = none →
        (b.guid ∈ getL (register_link s.topology a b).1 a.class_name a.guid
          ↔ a.guid ∈ getL (register_link s.topology a b).1 b.class_name b.guid)
        ∧ b.guid ∈ getL (register_link s.topology a b).1 a.class_name a.guid
        ∧ a.guid ∈ getL (register_link s.topology a b).1 b.class_name b.guid) := by
  constructor
  · exact (simReach_inv h).1.2.2.2
  · intro a b hok
    unfold register_link at hok ⊢
    by_cases hA : (lookup2 s.topology a.class_name a.guid).isNone
    · rw [if_pos hA] at hok
      simp at hok
    · by_cases hB : (lookup2 s.topology b.class_name b.guid).isNone
      · rw [if_neg hA, if_pos hB] at hok
        simp at hok
      · rw [if_neg hA, if_neg hB]
        cases h1 : lookup2 s.topology a.class_name a.guid with
        | none => rw [h1] at hA; simp at hA
        | some l1 =>
          cases h2 : lookup2 s.topology b.class_name b.guid with
          | none => rw [h2] at hB; simp at hB
          | some l2 =>
            obtain ⟨m1, m2⟩ := linkPair_mem h1 h2
            exact ⟨⟨fun _ => m2, fun _ => m1⟩, m1, m2⟩

/-- C2: A UE currently attached to cell X (`current_cell_guid = x`) whose
    serving cell on this tick has GUID `y ≠ x` runs `update_cell_guid` then
    `update_ue_topology` (as in `AIMMeeUE.loop`).  Afterwards
    `last_cell_guid = x`, `current_cell_guid = y`, no exception was raised,
    the UE's GUID is absent from cell X's adjacency list and present in cell
    Y's. -/

theorem C2_ue_reattachment (t : Topology) (u : UEState) (g x y : Guid)
    (lx ly lu : List Guid)
    (hg : u.guid = some g)
    (hcur : u.current_cell_guid = some x)
    (hyx : y ≠ x)
    (hX : lookup2 t "AIMMeeCell" x = some lx)
    (hY : lookup2 t "AIMMeeCell" y = some ly)
    (hU : lookup2 t "AIMMeeUE" g = some lu) :
    (update_cell_guid u y).last_cell_guid = some x
    ∧ (update_cell_guid u y).current_cell_guid = some y
    ∧ (update_ue_topology t (update_cell_guid u y)).2 = none
    ∧ g ∉ getL (update_ue_topology t (update_cell_guid u y)).1 "AIMMeeCell" x
    ∧ g ∈ getL (update_ue_topology t (update_cell_guid u y)).1 "AIMMeeCell" y := by
  have hu' := update_cell_guid_run u y x hcur hyx
  have hg' : (update_cell_guid u y).guid = some g := by rw [hu']; exact hg
  have hlast' : (update_cell_guid u y).last_cell_guid = some x := by rw [hu']
  have hcur' : (update_cell_guid u y).current_cell_guid = some y := by rw [hu']
  have hue1 : lookup2 (update2 t "AIMMeeCell" x (lx.filter fun z => z != g))
      "AIMMeeUE" g = some lu := by
    rw [lookup2_update2_ne t _ (fun h0 => absurd h0.1 (by decide))]
    exact hU
  have hrm := ue_remove_phase_run t g x lx lu hX hue1
  set T2 := update2 (update2 t "AIMMeeCell" x (lx.filter fun z => z != g))
    "AIMMeeUE" g (lu.filter fun z => z != x) with hT2
  have ht2cx : lookup2 T2 "AIMMeeCell" x = some (lx.filter fun z => z != g) := by
    rw [hT2]
    rw [lookup2_update2_ne _ _ (fun h0 => absurd h0.1 (by decide))]
    rw [lookup2_update2_self, hX]
    rfl
  have ht2cy : lookup2 T2 "AIMMeeCell" y = some ly := by
    rw [hT2]
    rw [lookup2_update2_ne _ _ (fun h0 => absurd h0.1 (by decide))]
    rw [lookup2_update2_ne t _ (fun h0 => absurd h0.2 hyx)]
    exact hY
  have ht2ue : lookup2 T2 "AIMMeeUE" g = some (lu.filter fun z => z != x) := by
    rw [hT2]
    rw [lookup2_update2_self, hue1]
    rfl
  have hueT3 : (lookup2 (if g ∈ ly then T2 else update2 T2 "AIMMeeCell" y (ly ++ [g]))
      "AIMMeeUE" g).isSome := by
    by_cases hm : g ∈ ly
    · rw [if_pos hm, ht2ue]
      rfl
    · rw [if_neg hm, lookup2_update2_isSome, ht2ue]
      rfl
  have hadd := ue_add_phase_run T2 g y ly ht2cy hueT3
  have hrun := update_ue_topology_run t (update_cell_guid u y) g x y hg' hlast' hcur'
    (fun he => hyx he.symm)
  rw [hrm] at hrun
  have hred : (match ((T2 : Topology), (none : Option PyErr)) with
      | (t2, some e) => (t2, some e)
      | (t2, none) => ue_add_phase t2 g (some y)) = ue_add_phase T2 g (some y) := rfl
  rw [hred, hadd] at hrun
  refine ⟨hlast', hcur', ?_, ?_, ?_⟩
  · rw [hrun]
  · rw [hrun]
    have hne := linkPair_lookup_ne ht2cy ht2ue (c := "AIMMeeCell") (g := x)
      (fun h0 => absurd h0.2 (Ne.symm hyx)) (fun h0 => absurd h0.1 (by decide))
    simp only [getL, hne, ht2cx, Option.getD_some]
    simp [List.mem_filter]
  · rw [hrun]
    exact (linkPair_mem ht2cy ht2ue).1

/-- C4 (code bug): `deregister_link` reads `self._sim`, an attribute that no
    statement in the repository assigns (`__init__` sets the plain `sim`),
    so every unlink call raises `AttributeError` before any mutation — it
    never removes an edge, never restores the pre-link state, and certainly
    does not "never raise". -/

theorem C4_deregister_link_always_raises (t : Topology) (a b : SimObject)
    (h : a._sim = none) :
    deregister_link t a b = (t, some PyErr.attributeError) :=
  deregister_link_unset_sim t a b h

/-- C7: GUID uniqueness.  In every reachable state of one Simulation, two
    distinct nodes present in `guid_map` have different GUIDs: each entry
    stores a node under its own GUID and dict keys are unique, so a node
    whose `id()` collided with a live node's would simply not be inserted
    (`setdefault`). -/

theorem C7_guid_uniqueness (s : SimState) (h : SimReach s) :
    ∀ p ∈ s.guid_map, ∀ q ∈ s.guid_map, p.2 ≠ q.2 → p.2.guid ≠ q.2.guid := by
  intro p hp q hq hne hgeq
  have hp1 := (simReach_inv h).2.1 p hp
  have hq1 := (simReach_inv h).2.1 q hq
  have hkey : p.1 = q.1 := by rw [← hp1, ← hq1, hgeq]
  have hpq : p = q := nodup_keys_eq (simReach_inv h).2.2 hp hq hkey
  exact hne (by rw [hpq])

theorem setdefaultA_idem {α β : Type} [DecidableEq α] (l : List (α × β)) (q : α) (w : β) :
    setdefaultA (setdefaultA l q w) q w = setdefaultA l q w := by
  apply setdefaultA_of_isSome
  rw [lookupA_setdefaultA_self]
  rfl

theorem setdefault2_idem (t : Topology) (c : String) (g : Guid) :
    setdefault2 (setdefault2 t c g) c g = setdefault2 t c g := by
  apply setdefault2_of_isSome
  rw [lookup2_setdefault2_self]
  rfl

/-- C8 (amended): registering a node that already holds a GUID a second time
    is a silent idempotent no-op: `add_to_sim` only performs `setdefault`s,
    raises nothing (there is no `DuplicateRegistration` anywhere in the
    code), and the second call returns the unchanged state. -/

theorem C8_reregistration_silent_noop (s : SimState) (o : SimObject) :
    add_to_sim (add_to_sim s o).1 o = ((add_to_sim s o).1, none) := by
  unfold add_to_sim
  simp only [setdefault2_idem, setdefaultA_idem]

theorem lookupA_key_map {β : Type} (c : β) (l : List Nat) (i : Nat) (h : i ∈ l) :
    lookupA (l.map fun k => (fh_key k, c)) (fh_key i) = some c := by
  induction l with
  | nil => simp at h
  | cons a rest ih =>
    by_cases hk : fh_key i = fh_key a
    · simp [lookupA, hk]
    · rcases List.mem_cons.mp h with h1 | h1
      · exact absurd (by rw [h1]) hk
      · simp only [List.map_cons, lookupA, if_neg hk]
        exact ih h1

/-- C3 (code bug): on a `RemoteRadioHead` with `n_rf_ports = 2`, the first
    `make_AntennaPanel` succeeds and occupies slot 0, but the SECOND call
    already raises `Exception('... No free antenna ports available.')` —
    the `raise` sits inside the loop body, so the scan aborts as soon as
    port 0 is occupied even though port 1 is free — and the second panel
    was registered into the GUID map and topology and linked to the RRH
    before the scan, contradicting both "two calls succeed, a third fails"
    and "not registered if allocation fails". -/

theorem C3_second_panel_raises_and_is_registered :
    apCall1.2 = none
    ∧ (apCall1.1.rf_ports.map fun p => p.2.antenna_panel) = [some 101, none]
    ∧ apCall2.2 = some (PyErr.exception
        "RemoteRadioHead[0]: No free antenna ports available.")
    ∧ (apCall2.1.rf_ports.map fun p => p.2.antenna_panel) = [some 101, none]
    ∧ (lookupA apCall2.1.sim.guid_map 102).isSome = true
    ∧ (lookup2 apCall2.1.sim.topology "AntennaPanel" 102).isSome = true
    ∧ 102 ∈ getL apCall2.1.sim.topology "RemoteRadioHead" 100 := by
  decide

/-- C5 counterexample: the node loops accumulate no energy.  A node with
    constant power model 10.0 and interval 1.0 run for 5 ticks has NO
    `accumulated_joules` attribute at all — reading it raises
    `AttributeError` instead of yielding 50.0. -/

theorem C5_counterexample_no_accumulated_joules :
    (run_loop_ticks 5 (energy_node, 0)).1.accumulated_joules = none
    ∧ accumulated_joules_read (run_loop_ticks 5 (energy_node, 0)).1
      = Except.error PyErr.attributeError
    ∧ accumulated_joules_read (run_loop_ticks 5 (energy_node, 0)).1
      ≠ Except.ok 50 := by
  decide

/-- C5 (amended): a node's event loop performs no energy accounting: after
    any number of ticks the node's state (including the never-created
    `accumulated_joules` attribute) is unchanged, and only simulated time
    advances by `interval` per tick. -/

theorem C5_loop_ticks_change_nothing (o : SimObject) (now : ℚ) (n : Nat) :
    (run_loop_ticks n (o, now)).1 = o
    ∧ (run_loop_ticks n (o, now)).2 = now + n * o.interval := by
  induction n generalizing now with
  | zero => simp [run_loop_ticks]
  | succ m ih =>
    unfold run_loop_ticks simobject_loop_tick
    obtain ⟨ih1, ih2⟩ := ih (now + o.interval)
    refine ⟨ih1, ?_⟩
    rw [ih2]
    push_cast
    ring

/-- C6 (code bug): `example_CU_power_model` does compute
    `(1 - du_load) * 656.25` (0.4 ↦ 393.75), but the CentralisedUnit's
    configured power model is `example_CU_power_model(0.0) = 656.25`
    regardless of any DistributedUnit, and the only coupling path,
    `attach_to_du`, raises `AttributeError` reading the never-assigned
    `self.cu` — so an attached DU with `p_load = 0.4` leaves the CU's
    power at 656.25, not 393.75. -/

theorem C6_cu_power_not_coupled_to_du_load :
    example_CU_power_model (2/5) = 393.75
    ∧ (example_DU_power_model 2100 2 90 384 (3/8) 0 0 1 52 1 23 3 75).2 = 624/2100
    ∧ cuScenario.1.obj._power_model = some (some 656.25)
    ∧ cuAttach.2.2 = some PyErr.attributeError
    ∧ cuAttach.1.obj._power_model = some (some 656.25)
    ∧ (656.25 : ℚ) ≠ 393.75 := by
  refine ⟨?_, ?_, ?_, rfl, ?_, ?_⟩
  · norm_num [example_CU_power_model]
  · norm_num [example_DU_power_model]
  · simp only [cuScenario, centralisedUnitInit, simObjectInit, set_power_model]
    norm_num [example_CU_power_model]
  · simp only [cuAttach, attach_to_du, cuScenario, centralisedUnitInit, simObjectInit,
      set_power_model]
    norm_num [example_CU_power_model]
  · norm_num

/-- C9 (code bug): reading `power_model` on a node with none configured
    raises `AttributeError` — `__init__` never initialises `_power_model`,
    leaving the getter's "no model" `None` branch unreachable — instead of
    returning the distinguished `None` value and logging a notice. -/

theorem C9_power_model_read_raises :
    power_model_get rap_node = Except.error PyErr.attributeError
    ∧ power_model_get rap_node ≠ Except.ok none := by
  decide

/-- C10: the `data_rate_Gbps_max` value supplied to `make_fronthaul_ports`
    (from the `fronthaul_ports` constructor argument) has no effect — the
    whole resulting state is identical for any two values; every port maps
    to the one shared `_default_port_params` record, whose fields are
    `data_rate_Gbps = 0.0` and `data_rate_Gbps_max = 10.0` (hard-coded);
    and `get_fronthaul_port` returns that same shared record('s reference)
    for every valid port index. -/

theorem C10_fronthaul_ports_shared_and_fixed (n_ports : Nat) (protocol : String)
    (data_rate_Gbps_max : ℚ) (i : Nat) (h : i < n_ports) :
    get_fronthaul_port (make_fronthaul_ports n_ports protocol data_rate_Gbps_max) "" i
      = Except.ok (make_fronthaul_ports n_ports protocol data_rate_Gbps_max)._default_port_params
    ∧ (make_fronthaul_ports n_ports protocol data_rate_Gbps_max).heap.get?
        (make_fronthaul_ports n_ports protocol data_rate_Gbps_max)._default_port_params
      = some { protocol := protocol, data_rate_Gbps := 0, data_rate_Gbps_max := 10 }
    ∧ make_fronthaul_ports n_ports protocol data_rate_Gbps_max
      = make_fronthaul_ports n_ports protocol 999 := by
  refine ⟨?_, rfl, rfl⟩
  unfold get_fronthaul_port make_fronthaul_ports
  rw [lookupA_key_map 0 (List.range n_ports) i (List.mem_range.mpr h)]

/-- Witness for C1 at a concrete reachable state: a Simulation holding one
    registered cell and one registered UE. -/

theorem C1_witness :
    (∀ c1 g1 l1 c2 g2 l2, lookup2 simW.topology c1 g1 = some l1 →
        lookup2 simW.topology c2 g2 = some l2 → (g2 ∈ l1 ↔ g1 ∈ l2))
    ∧ (∀ a b : SimObject, (register_link simW.topology a b).2 = none →
        (b.guid ∈ getL (register_link simW.topology a b).1 a.class_name a.guid
          ↔ a.guid ∈ getL (register_link simW.topology a b).1 b.class_name b.guid)
        ∧ b.guid ∈ getL (register_link simW.topology a b).1 a.class_name a.guid
        ∧ a.guid ∈ getL (register_link simW.topology a b).1 b.class_name b.guid) :=
  C1_link_symmetry simW
    (SimReach.add ueW (by decide) (SimReach.add cellW (by decide) SimReach.init))

/-- Witness for C2 at a concrete topology: UE 10 attached to cell 1,
    re-attached to cell 2. -/

theorem C2_witness :
    (update_cell_guid u0W 2).last_cell_guid = some 1
    ∧ (update_cell_guid u0W 2).current_cell_guid = some 2
    ∧ (update_ue_topology t0W (update_cell_guid u0W 2)).2 = none
    ∧ 10 ∉ getL (update_ue_topology t0W (update_cell_guid u0W 2)).1 "AIMMeeCell" 1
    ∧ 10 ∈ getL (update_ue_topology t0W (update_cell_guid u0W 2)).1 "AIMMeeCell" 2 :=
  C2_ue_reattachment t0W u0W 10 1 2 [10] [] [1] rfl rfl (by decide)
    (by decide) (by decide) (by decide)

/-- Witness for C4: unlinking two concrete program-built nodes raises. -/

theorem C4_witness :
    deregister_link [] cellW ueW = ([], some PyErr.attributeError) :=
  C4_deregister_link_always_raises [] cellW ueW rfl

/-- Witness for C7 at a concrete reachable state with two registered
    nodes, instantiated at the two distinct entries of its GUID map. -/
theorem C7_witness : cellW.guid ≠ ueW.guid :=
  C7_guid_uniqueness simW
    (SimReach.add ueW (by decide) (SimReach.add cellW (by decide) SimReach.init))
    (1, cellW) (by decide) (2, ueW) (by decide) (by decide)

/-- C8 counterexample: the concrete second registration of an
    already-registered node completes silently — no exception, state
    unchanged — rather than failing with a `DuplicateRegistration`. -/

theorem C8_counterexample_second_registration_silent :
    add_to_sim (add_to_sim { topology := [], guid_map := [] } cellW).1 cellW
      = ((add_to_sim { topology := [], guid_map := [] } cellW).1, none) := by
  decide

/-- Witness for C10 at `n_ports = 2`, protocol `'CPRI'`, a supplied
    `data_rate_Gbps_max` of 25, port index 1. -/

theorem C10_witness :
    get_fronthaul_port (make_fronthaul_ports 2 "CPRI" 25) "" 1
      = Except.ok (make_fronthaul_ports 2 "CPRI" 25)._default_port_params
    ∧ (make_fronthaul_ports 2 "CPRI" 25).heap.get?
        (make_fronthaul_ports 2 "CPRI" 25)._default_port_params
      = some { protocol := "CPRI", data_rate_Gbps := 0, data_rate_Gbps_max := 10 }
    ∧ make_fronthaul_ports 2 "CPRI" 25 = make_fronthaul_ports 2 "CPRI" 999 :=
  C10_fronthaul_ports_shared_and_fixed 2 "CPRI" 25 1 (by decide)
